import Mathlib

/-!
Verification of the tool-activation / connection-status reconciliation flow
of the chat application, against its natural-language specification.

The definitions below are shallow embeddings of the TypeScript source:

* `src/lib/tool-activation-parser.ts` — `parseToolActivationMessage` and
  `hasToolActivationRequirements`, including an explicit model of the JS
  regex `/\[TOOL_ACTIVATION_REQUIRED:([^\]]+)\]/g` as a left-to-right,
  non-overlapping scanner over the character list of the message
  (`scanMarkers`), of `String.prototype.split(',')` (`splitOnComma`) and of
  `String.prototype.trim` (`trimChars`).
* `src/components/toolbar.tsx` — the `ToolCard` connection state machine:
  `handleConnect`'s precondition checks (`handleConnect` below) and the
  `checkConnectionStatus` polling loop together with its cancel button and
  unmount cleanup, modelled as an event-step function (`stepEvent`) over an
  explicit poller state (scheduled timer, in-flight request, UI status).
* the `/api/toolkits` route (registry fetch) — `registryGET` below, with the
  two external SDK calls (`connectedAccounts.list`, `toolkits.get`) abstracted
  as `Except`/function-valued oracles.
-/

/-! ## Character-level utilities (JS string primitive models) -/

/-- Model of `String.prototype.split(',')` on a character list: splits on every
`','`, keeping empty segments, and yields `[[]]` on the empty string (JS
`''.split(',') === ['']`). -/
def splitOnComma : List Char → List (List Char)
  | [] => [[]]
  | c :: rest =>
    let r := splitOnComma rest
    if c = ',' then [] :: r
    else
      match r with
      | h :: t => (c :: h) :: t
      | [] => [[c]]

/-- Model of `String.prototype.trim`: drop whitespace from both ends. -/
def trimChars (l : List Char) : List Char :=
  ((l.dropWhile Char.isWhitespace).reverse.dropWhile Char.isWhitespace).reverse

/-- Model of `String.prototype.toUpperCase`: upper-case each character. -/
def upperStr (s : String) : String :=
  String.mk (s.data.map Char.toUpper)

/-- The literal head of an activation marker, `"[TOOL_ACTIVATION_REQUIRED:"`. -/
def markerOpen : List Char := "[TOOL_ACTIVATION_REQUIRED:".data

/-- `dropExact pat l` strips the literal `pat` from the front of `l`,
returning the remainder, or `none` if `l` does not start with `pat`. -/
def dropExact : List Char → List Char → Option (List Char)
  | [], l => some l
  | _ :: _, [] => none
  | p :: ps, c :: cs => if c = p then dropExact ps cs else none

/-- Attempt to match the regex `\[TOOL_ACTIVATION_REQUIRED:([^\]]+)\]` at the
start of `l`.  On success returns the captured group (the slug list between
`:` and `]`, at least one character, none of them `]`) and the characters
after the closing `]`.  The `+` quantifier is greedy and `[^\]]` can never
consume `]`, so taking the maximal run of non-`]` characters and then
requiring a `]` is exact (backtracking cannot produce another match). -/
def matchMarkerAt (l : List Char) : Option (List Char × List Char) :=
  match dropExact markerOpen l with
  | none => none
  | some rest =>
    let content := rest.takeWhile (fun c => c ≠ ']')
    match content, rest.dropWhile (fun c => c ≠ ']') with
    | [], _ => none
    | _ :: _, ']' :: after => some (content, after)
    | _ :: _, _ => none

/-- Fueled scanner implementing the global-flag semantics shared by
`message.matchAll(re)` and `message.replace(re, '')`: try the pattern at each
index left to right; on a match, emit the captured group, resume after the
match; otherwise keep the character and advance one index.  Returns the list
of captured groups and the input with every matched span removed.  Each step
consumes at least one character, so `fuel = l.length` suffices. -/
def scanAux : Nat → List Char → List (List Char) × List Char
  | 0, l => ([], l)
  | _ + 1, [] => ([], [])
  | fuel + 1, c :: rest =>
    match matchMarkerAt (c :: rest) with
    | some (content, after) =>
      let r := scanAux fuel after
      (content :: r.1, r.2)
    | none =>
      let r := scanAux fuel rest
      (r.1, c :: r.2)

/-- One left-to-right pass of the marker regex over `l`: captured groups and
the text with the matched spans removed. -/
def scanMarkers (l : List Char) : List (List Char) × List Char :=
  scanAux l.length l

/-! ## `parseToolActivationMessage` (src/lib/tool-activation-parser.ts) -/

/-- The `RequiredTool` interface of the source. -/
structure RequiredTool where
  name : String
  slug : String
  description : Option String := none
  logo : Option String := none
  isConnected : Bool
  connectionId : Option String := none
  deriving Repr, DecidableEq

/-- The `ToolActivationData` interface of the source. -/
structure ToolActivationData where
  requiredTools : List RequiredTool
  message : String
  deriving Repr, DecidableEq

/-- `Array.from(message.matchAll(toolActivationRegex))`, keeping only the
captured slug-list strings. -/
def markerContents (message : String) : List String :=
  (scanMarkers message.data).1.map fun cs => String.mk cs

/-- `message.replace(toolActivationRegex, '')`: the message with every marker
occurrence (as found in the single global pass) removed. -/
def removeMarkers (message : String) : String :=
  String.mk (scanMarkers message.data).2

/-- All slugs referenced by all marker occurrences, in occurrence order,
before de-duplication: `match[1].split(',').map(slug => slug.trim())`
flattened across matches. -/
def markerSlugs (message : String) : List String :=
  (scanMarkers message.data).1.flatMap fun content =>
    (splitOnComma content).map fun cs => String.mk (trimChars cs)

/-- JS `Set` insertion: append `x` unless already present. -/
def addUnique (acc : List String) (x : String) : List String :=
  if x ∈ acc then acc else acc ++ [x]

/-- De-duplicate keeping first occurrences, the contents of
`new Set<string>()` filled by repeated `.add` in iteration order. -/
def dedupKeepFirst (l : List String) : List String :=
  l.foldl addUnique []

/-- `parseToolActivationMessage(message, availableTools)`:
return `null` when the regex finds no match; otherwise union the slugs of all
matches into a de-duplicated set, resolve each against `availableTools` with
`find(tool => tool.slug === slug)` dropping misses, return `null` when none
resolve, else the resolved tools plus the message with the markers removed
and trimmed. -/
def parseToolActivationMessage (message : String)
    (availableTools : List RequiredTool) : Option ToolActivationData :=
  let matchList := markerContents message
  if matchList.isEmpty then none
  else
    let requiredSlugs := dedupKeepFirst (markerSlugs message)
    let requiredTools :=
      requiredSlugs.filterMap fun slug =>
        availableTools.find? fun tool => tool.slug == slug
    if requiredTools.isEmpty then none
    else some ⟨requiredTools, String.mk (trimChars (removeMarkers message).data)⟩

/-- `parseToolActivationMessage` with the cleaning step (`message.replace(...)
.trim()`) abstracted as a parameter.  Used to state that on the `null` paths
the cleaned text plays no role (it is never computed by the source, which
returns before reaching the `replace`). -/
def parseWithCleaner (cleaner : String → String) (message : String)
    (availableTools : List RequiredTool) : Option ToolActivationData :=
  let matchList := markerContents message
  if matchList.isEmpty then none
  else
    let requiredSlugs := dedupKeepFirst (markerSlugs message)
    let requiredTools :=
      requiredSlugs.filterMap fun slug =>
        availableTools.find? fun tool => tool.slug == slug
    if requiredTools.isEmpty then none
    else some ⟨requiredTools, cleaner message⟩

/-- `hasToolActivationRequirements(message)`:
`/\[TOOL_ACTIVATION_REQUIRED:[^\]]+\]/.test(message)` — true iff the marker
pattern matches at some index of the message. -/
def hasToolActivationRequirements (message : String) : Bool :=
  message.data.tails.any fun t => (matchMarkerAt t).isSome

/-! ## Connection status poller (`ToolCard` in src/components/toolbar.tsx)

`checkConnectionStatus(connectionId)` sets the UI status to `checking`, awaits
`GET /api/connections/status`, and switches on the returned status: `ACTIVE`
→ UI `active`, success toast and `onConnectionDeleted?.()` (listeners
notified); `FAILED` → UI `failed`; `EXPIRED` → UI `expired`;
`INITIALIZING`/`INITIATED` → `pollingTimeoutRef.current = setTimeout(...)`
re-scheduling another check after 2 s; a fetch/network error is caught and
sets UI `failed`.  The cancel button and the unmount cleanup run
`clearTimeout(pollingTimeoutRef.current)` and reset the UI status; nothing in
the source guards the continuation of an already in-flight request.

The model keeps the observable state: the UI `connectionStatus`, whether a
`setTimeout` check is pending (`scheduled`), whether a status request is
in flight awaiting its response (`inFlight`), and whether the ACTIVE
listeners were notified (`notified`). -/

/-- The five connection statuses of the external system
(`/api/connections/status` contract). -/
inductive ConnStatus
  | INITIALIZING | INITIATED | ACTIVE | FAILED | EXPIRED
  deriving Repr, DecidableEq

/-- Terminal statuses: `ACTIVE`, `FAILED`, `EXPIRED`. -/
def ConnStatus.isTerminal : ConnStatus → Bool
  | .ACTIVE | .FAILED | .EXPIRED => true
  | .INITIALIZING | .INITIATED => false

/-- The `connectionStatus` React state of `ToolCard`. -/
inductive UiStatus
  | idle | connecting | checking | active | failed | expired
  deriving Repr, DecidableEq

/-- Observable state of one `ToolCard` connection attempt. -/
structure PollerState where
  connectionStatus : UiStatus
  scheduled : Bool
  inFlight : Bool
  notified : Bool
  deriving Repr, DecidableEq

/-- Events driving the poller: the pending `setTimeout` fires (starting a
`checkConnectionStatus` invocation whose fetch is then in flight), the
in-flight request resolves with a status or rejects, or the user presses the
cancel button (`clearTimeout` + `setConnectionStatus('idle')` +
`setActiveConnectionId(null)`, which is also what the unmount cleanup runs). -/
inductive PollerEvent
  | timerFires
  | response (r : ConnStatus)
  | responseError
  | cancel
  deriving Repr, DecidableEq

/-- The `switch (data.status)` body of `checkConnectionStatus`, entered when
the in-flight request resolves. -/
def applyResponse (s : PollerState) : ConnStatus → PollerState
  | .ACTIVE => { s with connectionStatus := .active, notified := true }
  | .FAILED => { s with connectionStatus := .failed }
  | .EXPIRED => { s with connectionStatus := .expired }
  | .INITIALIZING => { s with scheduled := true }
  | .INITIATED => { s with scheduled := true }

/-- One event step.  A timer can only fire while scheduled; a response only
arrives while a request is in flight.  Cancellation clears the pending timer
and resets the UI status, but cannot reach an in-flight request (the source
has no hard-cancel and no generation stamp), so `inFlight` is untouched. -/
def stepEvent (s : PollerState) : PollerEvent → PollerState
  | .timerFires =>
    if s.scheduled then
      { s with scheduled := false, inFlight := true, connectionStatus := .checking }
    else s
  | .response r => if s.inFlight then applyResponse { s with inFlight := false } r else s
  | .responseError =>
    if s.inFlight then { s with inFlight := false, connectionStatus := .failed } else s
  | .cancel => { s with scheduled := false, connectionStatus := .idle }

/-- Run a sequence of events. -/
def runEvents (s : PollerState) (evs : List PollerEvent) : PollerState :=
  evs.foldl stepEvent s

/-- The nominal polling schedule for a list of status responses: for each
response, the pending check fires and then its response arrives. -/
def pollEvents (rs : List ConnStatus) : List PollerEvent :=
  rs.flatMap fun r => [.timerFires, .response r]

/-- State right after a successful `handleConnect`: UI status `connecting`,
the initial `setTimeout(() => checkConnectionStatus(connectionId), 3000)`
pending, no request in flight, nobody notified. -/
def initPollerState : PollerState :=
  ⟨.connecting, true, false, false⟩

/-- UI terminal status the `switch` assigns for a terminal response. -/
def uiOfTerminal : ConnStatus → UiStatus
  | .ACTIVE => .active
  | .FAILED => .failed
  | .EXPIRED => .expired
  | .INITIALIZING => .checking
  | .INITIATED => .checking

/-! ## `handleConnect` precondition checks (src/components/toolbar.tsx) -/

/-- The keys of the `TOOLKIT_AUTH_CONFIG` record literal in toolbar.tsx. -/
def toolbarAuthKeys : List String :=
  ["GMAIL", "GOOGLECALENDAR", "GITHUB", "NOTION", "SLACK", "LINEAR"]

/-- The `TOOLKIT_AUTH_CONFIG` record: each listed key maps to
`process.env.NEXT_PUBLIC_COMPOSIO_AUTH_<KEY> || ''`; indexing any other key
yields `undefined` (`none`). -/
def TOOLKIT_AUTH_CONFIG (env : String → Option String) (key : String) :
    Option String :=
  if key ∈ toolbarAuthKeys then
    some ((env ("NEXT_PUBLIC_COMPOSIO_AUTH_" ++ key)).getD "")
  else none

/-- Outcome of `handleConnect` up to the first network request. -/
inductive ConnectOutcome
  | authRequired
  | configurationMissing
  | initiationStarted (authConfigId : String)
  deriving Repr, DecidableEq

/-- Result of running `handleConnect`: the surfaced outcome, the network
requests issued, and the `connectionStatus` immediately after the
synchronous part. -/
structure ConnectResult where
  outcome : ConnectOutcome
  requests : List String
  statusAfter : UiStatus
  deriving Repr, DecidableEq

/-- `handleConnect` in `ToolCard`: bail out with a toast when unauthenticated;
look up `TOOLKIT_AUTH_CONFIG[toolkit.slug.toUpperCase()]` and bail out with a
"Configuration error" toast when the lookup is falsy (absent key or empty
string), before any state change and before any fetch; otherwise set the UI
status to `connecting` and POST `/api/connections/initiate`. -/
def handleConnect (userId : Option String) (env : String → Option String)
    (slug : String) (statusBefore : UiStatus) : ConnectResult :=
  match userId with
  | none => ⟨.authRequired, [], statusBefore⟩
  | some _ =>
    let authConfigId := (TOOLKIT_AUTH_CONFIG env (upperStr slug)).getD ""
    if authConfigId = "" then ⟨.configurationMissing, [], statusBefore⟩
    else
      ⟨.initiationStarted authConfigId, ["POST /api/connections/initiate"],
        .connecting⟩

/-! ## Toolkit registry fetch (`GET /api/toolkits`) -/

/-- The hardcoded `SUPPORTED_TOOLKITS` list of the registry route. -/
def SUPPORTED_TOOLKITS : List String :=
  ["GMAIL", "GOOGLECALENDAR", "GITHUB", "JIRA", "CONFLUENCE", "OUTLOOK",
   "MICROSOFT_TEAMS", "GOOGLESHEETS"]

/-- The fields of a `composio.toolkits.get` response the route reads. -/
structure ToolkitResponse where
  name : String
  slug : String
  description : Option String := none
  logo : Option String := none
  deriving Repr, DecidableEq

/-- A connected account as read by the route (`account.toolkit?.slug`,
`account.id`); a missing slug is modelled as `""` (falsy either way). -/
structure ConnectedAccount where
  id : String
  toolkitSlug : String
  deriving Repr, DecidableEq

/-- A toolkit object of the route's JSON response. -/
structure ToolkitOut where
  name : String
  slug : String
  description : Option String
  logo : Option String
  isConnected : Bool
  connectionId : Option String
  deriving Repr, DecidableEq

/-- `connectedToolkitMap`: for each account with truthy `toolkit.slug` and
truthy `id`, map the upper-cased slug to the account id (later accounts
overwrite earlier ones, as `Map.set` does). -/
def buildConnectedMap (accounts : List ConnectedAccount) :
    String → Option String :=
  accounts.foldl
    (fun m a =>
      if a.toolkitSlug ≠ "" ∧ a.id ≠ "" then
        fun k => if k = upperStr a.toolkitSlug then some a.id else m k
      else m)
    (fun _ => none)

/-- The body of one `SUPPORTED_TOOLKITS.map` callback: fetch the toolkit
(`none` models the per-toolkit catch returning `null`), look up the
connection id, compute `isConnected = !!connectionId` and return
`connectionId || undefined` (JS truthiness: `""` and `undefined` are falsy). -/
def fetchToolkitEntry (connMap : String → Option String) (slug : String) :
    Except Unit ToolkitResponse → Option ToolkitOut
  | .error _ => none
  | .ok tk =>
    let connectionId := connMap (upperStr slug)
    some
      { name := tk.name
        slug := tk.slug
        description := tk.description
        logo := tk.logo
        isConnected := match connectionId with
          | some s => s ≠ ""
          | none => false
        connectionId := match connectionId with
          | some s => if s = "" then none else some s
          | none => none }

/-- The registry route handler after authentication: build the connected map
(empty when `connectedAccounts.list` failed — that inner catch only logs and
continues), fetch every supported toolkit, and drop the `null` entries. -/
def registryGET (accountsResult : Except Unit (List ConnectedAccount))
    (toolkitResult : String → Except Unit ToolkitResponse) : List ToolkitOut :=
  let connMap :=
    match accountsResult with
    | .ok accounts => buildConnectedMap accounts
    | .error _ => fun _ => none
  (SUPPORTED_TOOLKITS.map fun slug =>
    fetchToolkitEntry connMap slug (toolkitResult slug)).filterMap id

/-! ## Helper lemmas -/

theorem foldl_addUnique_mem (l : List String) (acc : List String) (x : String) :
    x ∈ l.foldl addUnique acc ↔ x ∈ acc ∨ x ∈ l := by
  induction l generalizing acc with
  | nil => simp
  | cons a l ih =>
    simp only [List.foldl_cons, ih, addUnique]
    split <;> rename_i h <;> simp [List.mem_append] <;> constructor
    · rintro (hx | hx)
      · exact Or.inl hx
      · exact Or.inr (Or.inr hx)
    · rintro (hx | hx | hx)
      · exact Or.inl hx
      · exact Or.inl (hx ▸ h)
      · exact Or.inr hx
    · rintro ((hx | hx) | hx)
      · exact Or.inl hx
      · exact Or.inr (Or.inl hx)
      · exact Or.inr (Or.inr hx)
    · rintro (hx | hx | hx)
      · exact Or.inl (Or.inl hx)
      · exact Or.inl (Or.inr hx)
      · exact Or.inr hx

theorem mem_dedupKeepFirst (l : List String) (x : String) :
    x ∈ dedupKeepFirst l ↔ x ∈ l := by
  simp [dedupKeepFirst, foldl_addUnique_mem]

theorem foldl_addUnique_const (l : List String) (s : String)
    (h : ∀ x ∈ l, x = s) : l.foldl addUnique [s] = [s] := by
  induction l with
  | nil => rfl
  | cons a l ih =>
    have ha : a = s := h a (List.mem_cons_self a l)
    simp only [List.foldl_cons, addUnique, ha, List.mem_singleton, if_pos rfl]
    exact ih fun x hx => h x (List.mem_cons_of_mem a hx)

theorem dedupKeepFirst_const (l : List String) (s : String)
    (hmem : s ∈ l) (h : ∀ x ∈ l, x = s) : dedupKeepFirst l = [s] := by
  cases l with
  | nil => cases hmem
  | cons a l =>
    have ha : a = s := h a (List.mem_cons_self a l)
    subst ha
    simp only [dedupKeepFirst, List.foldl_cons, addUnique, List.not_mem_nil,
      if_neg (List.not_mem_nil a), List.nil_append]
    exact foldl_addUnique_const l a fun x hx => h x (List.mem_cons_of_mem a hx)

theorem scanAux_fst_ne_nil {fuel : Nat} {l : List Char}
    (h : (scanAux fuel l).1 ≠ []) :
    ∃ t, t <:+ l ∧ (matchMarkerAt t).isSome := by
  induction fuel generalizing l with
  | zero => simp [scanAux] at h
  | succ fuel ih =>
    cases l with
    | nil => simp [scanAux] at h
    | cons c rest =>
      by_cases hm : (matchMarkerAt (c :: rest)).isSome
      · exact ⟨c :: rest, List.suffix_refl _, hm⟩
      · have hnone : matchMarkerAt (c :: rest) = none :=
          Option.not_isSome_iff_eq_none.mp hm
        have h' : (scanAux fuel rest).1 ≠ [] := by
          simpa [scanAux, hnone] using h
        obtain ⟨t, hts, htm⟩ := ih h'
        exact ⟨t, hts.trans (List.suffix_cons c rest), htm⟩

theorem markerContents_eq_nil_iff (msg : String) :
    markerContents msg = [] ↔ (scanMarkers msg.data).1 = [] := by
  simp [markerContents]

theorem markerSlugs_eq_nil (msg : String)
    (h : markerContents msg = []) : markerSlugs msg = [] := by
  rw [markerContents_eq_nil_iff] at h
  simp [markerSlugs, h]

theorem parse_none_structural (msg : String) (tools : List RequiredTool) :
    parseToolActivationMessage msg tools = none ↔
      (markerContents msg = [] ∨
        ((dedupKeepFirst (markerSlugs msg)).filterMap fun slug =>
          tools.find? fun tool => tool.slug == slug) = []) := by
  simp only [parseToolActivationMessage]
  split
  next h => simp_all [List.isEmpty_iff]
  next h =>
    split
    next h2 => simp_all [List.isEmpty_iff]
    next h2 => simp_all [List.isEmpty_iff]

theorem parse_none_iff (msg : String) (tools : List RequiredTool) :
    parseToolActivationMessage msg tools = none ↔
      (markerContents msg = [] ∨
        ∀ s ∈ markerSlugs msg,
          tools.find? (fun tool => tool.slug == s) = none) := by
  rw [parse_none_structural]
  refine or_congr Iff.rfl ?_
  rw [List.filterMap_eq_nil_iff]
  constructor
  · intro h s hs
    exact h s ((mem_dedupKeepFirst _ _).mpr hs)
  · intro h s hs
    exact h s ((mem_dedupKeepFirst _ _).mp hs)

theorem runEvents_quiescent (s : PollerState) (evs : List PollerEvent)
    (h1 : s.scheduled = false) (h2 : s.inFlight = false) :
    (runEvents s evs).scheduled = false ∧ (runEvents s evs).inFlight = false := by
  induction evs generalizing s with
  | nil => exact ⟨h1, h2⟩
  | cons e evs ih =>
    have hstep : (stepEvent s e).scheduled = false ∧ (stepEvent s e).inFlight = false := by
      cases e <;> simp [stepEvent, h1, h2]
    exact ih _ hstep.1 hstep.2

theorem pollEvents_nonterminal (rs : List ConnStatus) (s : PollerState)
    (hrs : ∀ r ∈ rs, r.isTerminal = false)
    (hsch : s.scheduled = true) (hinf : s.inFlight = false) :
    runEvents s (pollEvents rs) =
      ⟨if rs.isEmpty then s.connectionStatus else .checking, true, false,
        s.notified⟩ := by
  induction rs generalizing s with
  | nil =>
    cases s
    simp_all [runEvents, pollEvents]
  | cons r rs ih =>
    have hr : r.isTerminal = false := hrs r (List.mem_cons_self r rs)
    have hrs' : ∀ x ∈ rs, x.isTerminal = false := fun x hx =>
      hrs x (List.mem_cons_of_mem r hx)
    have hpair :
        runEvents s (pollEvents (r :: rs)) =
          runEvents (stepEvent (stepEvent s .timerFires) (.response r))
            (pollEvents rs) := by
      simp [pollEvents, runEvents]
    rw [hpair]
    cases r <;> simp_all [ConnStatus.isTerminal, stepEvent, applyResponse, ih, pollEvents]

/-! ## Claim theorems -/

/-- C1: the claim says the Connection Status Poller stops after a bounded
maximum attempt count or wall-clock timeout when every polled status is
non-terminal, transitioning once to a timed-out terminal state.  The source
does the opposite: after any number `n` of consecutive `INITIATED` responses
another status check is always scheduled, and the `ToolCard` status machine
(whose states are exactly `idle/connecting/checking/active/failed/expired`)
is still in a non-terminal state — there is no timed-out state and no bound
of any kind. -/
theorem c1_poller_never_times_out (n : Nat) :
    (runEvents initPollerState
        (pollEvents (List.replicate n .INITIATED))).scheduled = true ∧
    ((runEvents initPollerState
        (pollEvents (List.replicate n .INITIATED))).connectionStatus
          = .connecting ∨
     (runEvents initPollerState
        (pollEvents (List.replicate n .INITIATED))).connectionStatus
          = .checking) := by
  have h := pollEvents_nonterminal (List.replicate n .INITIATED) initPollerState
    (fun r hr => by rw [List.eq_of_mem_replicate hr]; rfl) rfl rfl
  rw [h]
  cases n <;> simp [initPollerState]

/-- C5: once a poll returns a terminal status, the poller transitions to the
matching terminal UI state (`active` on `ACTIVE` with the listeners notified,
`failed` on `FAILED`, `expired` on `EXPIRED`) and no further status check is
ever scheduled for the attempt: in every continuation of the run no timer is
pending and no request is in flight. -/
theorem c5_terminal_stops_polling (pre : List ConnStatus) (t : ConnStatus)
    (hpre : ∀ r ∈ pre, r.isTerminal = false) (ht : t.isTerminal = true) :
    (runEvents initPollerState
        (pollEvents (pre ++ [t]))).connectionStatus = uiOfTerminal t ∧
    (runEvents initPollerState (pollEvents (pre ++ [t]))).scheduled = false ∧
    (runEvents initPollerState (pollEvents (pre ++ [t]))).inFlight = false ∧
    (t = .ACTIVE →
      (runEvents initPollerState (pollEvents (pre ++ [t]))).notified = true) ∧
    ∀ evs,
      (runEvents (runEvents initPollerState (pollEvents (pre ++ [t])))
          evs).scheduled = false ∧
      (runEvents (runEvents initPollerState (pollEvents (pre ++ [t])))
          evs).inFlight = false := by
  have hrun : runEvents initPollerState (pollEvents (pre ++ [t])) =
      runEvents (runEvents initPollerState (pollEvents pre))
        [.timerFires, .response t] := by
    simp [pollEvents, runEvents]
  have hpre' := pollEvents_nonterminal pre initPollerState hpre rfl rfl
  rw [hrun, hpre']
  cases t <;>
    simp_all [ConnStatus.isTerminal, runEvents, stepEvent, applyResponse,
      uiOfTerminal] <;>
    exact fun evs => runEvents_quiescent _ evs rfl rfl

/-- C6: the claim says cancellation is final and a status response already in
flight at the moment of cancellation is discarded.  In the source the cancel
button only runs `clearTimeout` and resets the UI state; the already-running
`checkConnectionStatus` invocation has no generation stamp and, when its
response arrives after the cancel, still executes the `switch`: a non-terminal
`INITIATED` response re-runs `setTimeout`, scheduling a new status check and
resurrecting the polling loop (cancellation itself is idempotent, as the
third conjunct shows). -/
theorem c6_stale_response_resurrects_polling :
    (stepEvent (stepEvent initPollerState .timerFires) .cancel).scheduled
        = false ∧
    (stepEvent (stepEvent initPollerState .timerFires) .cancel).connectionStatus
        = .idle ∧
    stepEvent (stepEvent (stepEvent initPollerState .timerFires) .cancel)
        .cancel
      = stepEvent (stepEvent initPollerState .timerFires) .cancel ∧
    (stepEvent (stepEvent (stepEvent initPollerState .timerFires) .cancel)
        (.response .INITIATED)).scheduled = true := by
  decide

/-- Witness for C5 at the concrete trace `INITIATED, ACTIVE`. -/
theorem c5_witness :
    (runEvents initPollerState
        (pollEvents ([ConnStatus.INITIATED] ++ [ConnStatus.ACTIVE]))).connectionStatus
      = .active ∧
    (runEvents initPollerState
        (pollEvents ([ConnStatus.INITIATED] ++ [ConnStatus.ACTIVE]))).scheduled
      = false ∧
    (runEvents initPollerState
        (pollEvents ([ConnStatus.INITIATED] ++ [ConnStatus.ACTIVE]))).notified
      = true :=
  ⟨(c5_terminal_stops_polling [.INITIATED] .ACTIVE (by decide) rfl).1,
   (c5_terminal_stops_polling [.INITIATED] .ACTIVE (by decide) rfl).2.1,
   (c5_terminal_stops_polling [.INITIATED] .ACTIVE (by decide) rfl).2.2.2.1 rfl⟩

theorem registry_entries_disconnected (slugs : List String)
    (tkRes : String → Except Unit ToolkitResponse)
    (h : ∀ s ∈ slugs, ∃ tk, tkRes s = Except.ok tk) :
    ((slugs.map fun slug =>
        fetchToolkitEntry (fun _ => none) slug (tkRes slug)).filterMap
        id).length = slugs.length ∧
    ∀ t ∈ (slugs.map fun slug =>
        fetchToolkitEntry (fun _ => none) slug (tkRes slug)).filterMap id,
      t.isConnected = false ∧ t.connectionId = none := by
  induction slugs with
  | nil => simp
  | cons a slugs ih =>
    obtain ⟨tk, htk⟩ := h a (List.mem_cons_self a slugs)
    have h' : ∀ s ∈ slugs, ∃ tk, tkRes s = Except.ok tk := fun s hs =>
      h s (List.mem_cons_of_mem a hs)
    obtain ⟨ihlen, ihmem⟩ := ih h'
    have hcons :
        ((a :: slugs).map fun slug =>
            fetchToolkitEntry (fun _ => none) slug (tkRes slug)).filterMap id
          = ⟨tk.name, tk.slug, tk.description, tk.logo, false, none⟩ ::
            ((slugs.map fun slug =>
              fetchToolkitEntry (fun _ => none) slug (tkRes slug)).filterMap
              id) := by
      simp [htk, fetchToolkitEntry]
    rw [hcons]
    constructor
    · simp only [List.length_cons, ihlen]
    · intro t ht
      rcases List.mem_cons.mp ht with ht | ht
      · simp [ht]
      · exact ihmem t ht

/-- C7: when the connected-accounts lookup fails but every per-toolkit fetch
succeeds, the registry endpoint still returns an entry for every supported
toolkit, each with `isConnected = false` and no `connectionId`, instead of
failing the whole fetch. -/
theorem c7_registry_tolerates_accounts_failure
    (tkRes : String → Except Unit ToolkitResponse)
    (h : ∀ s ∈ SUPPORTED_TOOLKITS, ∃ tk, tkRes s = Except.ok tk) :
    (registryGET (.error ()) tkRes).length = SUPPORTED_TOOLKITS.length ∧
    ∀ t ∈ registryGET (.error ()) tkRes,
      t.isConnected = false ∧ t.connectionId = none := by
  have := registry_entries_disconnected SUPPORTED_TOOLKITS tkRes h
  simpa [registryGET] using this

/-- Witness for C7 with every toolkit fetch succeeding trivially. -/
theorem c7_witness :
    (registryGET (.error ())
        (fun s => Except.ok ⟨s, s, none, none⟩)).length = 8 ∧
    ∀ t ∈ registryGET (.error ()) (fun s => Except.ok ⟨s, s, none, none⟩),
      t.isConnected = false ∧ t.connectionId = none := by
  have h := c7_registry_tolerates_accounts_failure
    (fun s => Except.ok ⟨s, s, none, none⟩)
    (fun s _ => ⟨⟨s, s, none, none⟩, rfl⟩)
  exact ⟨by rw [h.1]; rfl, h.2⟩

/-- C8: with an authenticated user, when the upper-cased toolkit slug has no
configuration identifier in `TOOLKIT_AUTH_CONFIG` (missing key, or key
present but its environment variable fell back to the empty-string sentinel),
`handleConnect` surfaces the configuration error as its own outcome, issues
no network request (in particular no `/api/connections/initiate` call, so no
connection attempt is created), and leaves the connection status unchanged. -/
theorem c8_missing_auth_config_no_request (u : String)
    (env : String → Option String) (slug : String) (st : UiStatus)
    (h : (TOOLKIT_AUTH_CONFIG env (upperStr slug)).getD "" = "") :
    handleConnect (some u) env slug st
      = ⟨.configurationMissing, [], st⟩ := by
  simp [handleConnect, h]

/-- Witness for C8: `JIRA` has no key in the toolbar's auth-config record. -/
theorem c8_witness :
    handleConnect (some "user-1") (fun _ => none) "JIRA" .idle
      = ⟨.configurationMissing, [], .idle⟩ :=
  c8_missing_auth_config_no_request "user-1" (fun _ => none) "JIRA" .idle
    (by decide)

theorem fetchToolkitEntry_fields (cm : String → Option String)
    (slug : String) (tk : ToolkitResponse) (t : ToolkitOut)
    (h : fetchToolkitEntry cm slug (.ok tk) = some t) :
    t.connectionId.isSome = t.isConnected := by
  simp only [fetchToolkitEntry, Option.some.injEq] at h
  subst h
  cases hc : cm (upperStr slug) with
  | none => simp
  | some s => by_cases hs : s = "" <;> simp [hs]

/-- C9: every toolkit object produced by the registry route carries a
`connectionId` exactly when its `isConnected` flag is true. -/
theorem c9_connectionId_iff_connected
    (accountsResult : Except Unit (List ConnectedAccount))
    (toolkitResult : String → Except Unit ToolkitResponse) (t : ToolkitOut)
    (h : t ∈ registryGET accountsResult toolkitResult) :
    t.connectionId.isSome = t.isConnected := by
  simp only [registryGET] at h
  rw [List.mem_filterMap] at h
  obtain ⟨a, ha, hid⟩ := h
  rw [List.mem_map] at ha
  obtain ⟨slug, _, hfe⟩ := ha
  rw [← hfe] at hid
  simp only [id_eq] at hid
  cases hres : toolkitResult slug with
  | error e =>
    rw [hres] at hid
    simp [fetchToolkitEntry] at hid
  | ok tk =>
    rw [hres] at hid
    exact fetchToolkitEntry_fields _ slug tk t hid

/-- Witness for C9 on a concrete registry output: `gmail` connected. -/
theorem c9_witness :
    (⟨"GMAIL", "GMAIL", none, none, true, some "acc-1"⟩ :
        ToolkitOut).connectionId.isSome
      = (⟨"GMAIL", "GMAIL", none, none, true, some "acc-1"⟩ :
        ToolkitOut).isConnected :=
  c9_connectionId_iff_connected (.ok [⟨"acc-1", "gmail"⟩])
    (fun s => .ok ⟨s, s, none, none⟩) _ (by decide)

/-- C2: when every slug referenced by every marker occurrence of the message
is the same slug `s` (referenced at least once), and `s` resolves against the
known toolkits, the parser returns exactly one `RequiredTool` for `s` — the
slugs of all occurrences are unioned into a de-duplicated set. -/
theorem c2_duplicate_markers_dedup (msg : String) (tools : List RequiredTool)
    (s : String) (t : RequiredTool)
    (hmem : s ∈ markerSlugs msg)
    (hall : ∀ x ∈ markerSlugs msg, x = s)
    (hfind : tools.find? (fun tool => tool.slug == s) = some t) :
    parseToolActivationMessage msg tools
      = some ⟨[t], String.mk (trimChars (removeMarkers msg).data)⟩ := by
  have hslugs_ne : markerSlugs msg ≠ [] := by
    intro h
    rw [h] at hmem
    cases hmem
  have hcontents_ne : markerContents msg ≠ [] := fun h =>
    hslugs_ne (markerSlugs_eq_nil msg h)
  have hded : dedupKeepFirst (markerSlugs msg) = [s] :=
    dedupKeepFirst_const _ s hmem hall
  have hfm : ([s].filterMap fun slug =>
      tools.find? fun tool => tool.slug == slug) = [t] := by
    simp [List.filterMap_cons, hfind]
  cases hL : markerContents msg with
  | nil => exact absurd hL hcontents_ne
  | cons m ms => simp [parseToolActivationMessage, hL, hded, hfm]

/-- Witness for C2: two markers, both referencing `GMAIL`. -/
theorem c2_witness :
    parseToolActivationMessage
        "Do it [TOOL_ACTIVATION_REQUIRED:GMAIL] and [TOOL_ACTIVATION_REQUIRED:GMAIL] now"
        [⟨"Gmail", "GMAIL", none, none, false, none⟩]
      = some ⟨[⟨"Gmail", "GMAIL", none, none, false, none⟩],
          String.mk (trimChars (removeMarkers
            "Do it [TOOL_ACTIVATION_REQUIRED:GMAIL] and [TOOL_ACTIVATION_REQUIRED:GMAIL] now").data)⟩ :=
  c2_duplicate_markers_dedup _ _ "GMAIL" _ (by decide) (by decide) (by decide)

/-- C3: the parser returns `null` exactly when the message has no marker
occurrence or every referenced slug fails to resolve; a marker whose slug
list is whitespace-only resolves to nothing (so it behaves as no match)
whenever no known toolkit has the empty slug; on marker-free input the
cleaned text plays no role in the result (the source returns before
computing it), stated by quantifying over the cleaning function; and a
marker enclosing an empty slug list, `[TOOL_ACTIVATION_REQUIRED:]`, is not a
match at all. -/
theorem c3_parse_null_conditions :
    (∀ msg tools, parseToolActivationMessage msg tools = none ↔
        (markerContents msg = [] ∨
          ∀ s ∈ markerSlugs msg,
            tools.find? (fun tool => tool.slug == s) = none)) ∧
    (∀ msg tools, (∀ s ∈ markerSlugs msg, s = "") →
        (∀ t ∈ tools, t.slug ≠ "") →
        parseToolActivationMessage msg tools = none) ∧
    (∀ f msg tools, markerContents msg = [] →
        parseWithCleaner f msg tools = none) ∧
    markerContents "[TOOL_ACTIVATION_REQUIRED:]" = [] := by
  refine ⟨parse_none_iff, ?_, ?_, by decide⟩
  · intro msg tools hws hnz
    rw [parse_none_iff]
    right
    intro s hs
    rw [hws s hs]
    rw [List.find?_eq_none]
    intro t ht
    simp only [beq_iff_eq]
    exact hnz t ht
  · intro f msg tools h
    simp [parseWithCleaner, h]

/-- Witness for C3 at marker-free input and a whitespace-only slug list. -/
theorem c3_witness :
    parseToolActivationMessage "no markers here" [] = none ∧
    parseToolActivationMessage "[TOOL_ACTIVATION_REQUIRED: ]"
        [⟨"Gmail", "GMAIL", none, none, false, none⟩] = none ∧
    parseWithCleaner (fun _ => "X") "no markers here" [] = none := by
  refine ⟨?_, ?_, ?_⟩
  · exact (c3_parse_null_conditions.1 "no markers here" []).mpr
      (Or.inl (by decide))
  · exact c3_parse_null_conditions.2.1 _ _ (by decide) (by decide)
  · exact c3_parse_null_conditions.2.2.1 _ _ _ (by decide)

/-- C4 counterexample: the claim says no literal marker text remains in the
cleaned message.  Removal is a single left-to-right pass, so deleting an
inner marker can juxtapose the surrounding fragments into a new literal
marker: here the parser succeeds (slug `x` resolves) yet the cleaned message
is exactly `[TOOL_ACTIVATION_REQUIRED:y]`, which the source's own
`hasToolActivationRequirements` still recognises as a marker. -/
theorem c4_marker_text_can_remain :
    parseToolActivationMessage
        "[TOOL_ACTIVATION_REQ[TOOL_ACTIVATION_REQUIRED:x]UIRED:y]"
        [⟨"X", "x", none, none, false, none⟩]
      = some ⟨[⟨"X", "x", none, none, false, none⟩],
          "[TOOL_ACTIVATION_REQUIRED:y]"⟩ ∧
    hasToolActivationRequirements "[TOOL_ACTIVATION_REQUIRED:y]" = true := by
  decide

/-- C4 amended: whenever the parser returns a non-null result, the cleaned
message equals the input with every marker occurrence found in the single
global regex pass removed and the result whitespace-trimmed (marker-shaped
text formed by juxtaposition of the remaining fragments may survive). -/
theorem c4_cleaned_is_singlepass_removal (msg : String)
    (tools : List RequiredTool) (r : ToolActivationData)
    (h : parseToolActivationMessage msg tools = some r) :
    r.message = String.mk (trimChars (removeMarkers msg).data) := by
  simp only [parseToolActivationMessage] at h
  split at h
  · simp at h
  · split at h
    · simp at h
    · cases h
      rfl

/-- Witness for C4 at a single-marker message. -/
theorem c4_witness :
    ∃ r, parseToolActivationMessage "hi [TOOL_ACTIVATION_REQUIRED:GMAIL] there"
        [⟨"Gmail", "GMAIL", none, none, false, none⟩] = some r ∧
      r.message = String.mk (trimChars
        (removeMarkers "hi [TOOL_ACTIVATION_REQUIRED:GMAIL] there").data) := by
  refine ⟨⟨[⟨"Gmail", "GMAIL", none, none, false, none⟩], "hi  there"⟩,
    by decide, ?_⟩
  exact c4_cleaned_is_singlepass_removal
    "hi [TOOL_ACTIVATION_REQUIRED:GMAIL] there"
    [⟨"Gmail", "GMAIL", none, none, false, none⟩] _ (by decide)

/-- C10: whenever `parseToolActivationMessage` returns a non-null result, the
boolean pre-check `hasToolActivationRequirements` reports `true` on the same
message. -/
theorem c10_parse_implies_has (msg : String) (tools : List RequiredTool)
    (r : ToolActivationData)
    (h : parseToolActivationMessage msg tools = some r) :
    hasToolActivationRequirements msg = true := by
  have hne : markerContents msg ≠ [] := by
    intro hL
    have hnone := (parse_none_iff msg tools).mpr (Or.inl hL)
    rw [h] at hnone
    cases hnone
  have hscan : (scanAux msg.data.length msg.data).1 ≠ [] := by
    intro h0
    exact hne ((markerContents_eq_nil_iff msg).mpr h0)
  obtain ⟨t, hts, htm⟩ := scanAux_fst_ne_nil hscan
  simp only [hasToolActivationRequirements]
  rw [List.any_eq_true]
  exact ⟨t, (List.mem_tails _ _).mpr hts, htm⟩

/-- Witness for C10 at a single-marker message. -/
theorem c10_witness :
    hasToolActivationRequirements "hi [TOOL_ACTIVATION_REQUIRED:GMAIL]"
      = true :=
  c10_parse_implies_has _ [⟨"Gmail", "GMAIL", none, none, false, none⟩]
    ⟨[⟨"Gmail", "GMAIL", none, none, false, none⟩], "hi"⟩ (by decide)
